import Mathlib

/-!
# Verification of the dmdevfs driver registry and path-resolution engine

Shallow embedding of `src/dmdevfs.c` (choco-technologies/dmdevfs).

Modelling conventions, fixed once for the whole file:

* C strings are Lean `String`s.  The `Dmod_SnPrintf`/`strncpy` buffer writes
  in the source always target buffers of `MAX_PATH_LENGTH` bytes and the
  source never reports an overflow for them (`Dmod_SnPrintf` NUL-terminates,
  so the `current_length >= buffer_size` guard in `read_driver_node_path`
  cannot fire); we therefore model the string construction without a length
  bound and `%u` formatting of a C `unsigned` as decimal `Nat.repr`.
* `Dmod_Malloc` / `Dmod_StrDup` failures are not modelled (no claim is about
  allocation failure).
* The DMFSI status codes live in the external header `dmfsi.h`; only the
  facts that `DMFSI_OK` is `0` and the error codes are distinct and nonzero
  are relied upon, which matches the source's `res != DMFSI_OK` /
  `res != 0` tests.
* The external `dmlist` collaborator (ordered list with `dmlist_push_back`,
  `dmlist_find`, `dmlist_find_next`) is modelled as a Lean `List`:
  `dmlist_find list u cmp` is the first element `x` with `cmp x u = 0`, and
  `dmlist_find_next list cur u cmp` scans strictly after the element `cur`
  (from the head when `cur` is NULL); node pointers become list indices.
* The external module system (`Dmod_IsModuleLoaded`, …) is modelled as a
  state of per-name `loaded` / `enabled` booleans plus an environment saying
  which loads/enables would succeed; driver capability resolution
  (`Dmod_GetDifFunction`) is modelled as a record of optional functions.
-/

namespace Dmdevfs

/-- Status codes surfaced by the DMFSI interface (external `dmfsi.h`).
`DMFSI_OK` is zero; the error values are distinct and nonzero, which is all
the source relies on. -/
def DMFSI_OK : Int := 0

/-- `DMFSI_ERR_INVALID` from `dmfsi.h` (bad arguments / invalid context). -/
def DMFSI_ERR_INVALID : Int := -1

/-- `DMFSI_ERR_NOT_FOUND` from `dmfsi.h`. -/
def DMFSI_ERR_NOT_FOUND : Int := -2

/-- `DMFSI_ERR_GENERAL` from `dmfsi.h`. -/
def DMFSI_ERR_GENERAL : Int := -3

/-- `DMFSI_ERR_NO_SPACE` from `dmfsi.h`. -/
def DMFSI_ERR_NO_SPACE : Int := -4

/-- `DMFSI_ATTR_DIRECTORY` from `dmfsi.h`; no claim depends on its value. -/
def DMFSI_ATTR_DIRECTORY : Int := 16

/-- `ROOT_DIRECTORY_NAME` from `dmdevfs.c`. -/
def ROOT_DIRECTORY_NAME : String := "/"

/-- `dmdrvi_dev_num_t`: the device-number descriptor a driver returns from
`dmdrvi_create`.  The C `flags` word is modelled by the two presence bits
`DMDRVI_NUM_MAJOR` / `DMDRVI_NUM_MINOR` it is tested against. -/
structure DevNum where
  majorGiven : Bool
  minorGiven : Bool
  major : Nat
  minor : Nat
deriving DecidableEq, Repr

/-- `%u` formatting used by `Dmod_SnPrintf` for the device numbers. -/
def uFmt (n : Nat) : String := Nat.repr n

/-- `read_driver_parent_directory` (dmdevfs.c:1093): the parent-directory
path of a node, computed from the module name and the device descriptor.
The source writes into a caller buffer and returns a status; with non-NULL
node and buffer and a non-NULL module name the status is always `DMFSI_OK`,
so we model just the produced string. -/
def read_driver_parent_directory (driver_name : String) (dev : DevNum) : String :=
  if dev.majorGiven && dev.minorGiven then
    driver_name ++ uFmt dev.major ++ "/"
  else if dev.minorGiven then
    driver_name ++ "x/"
  else
    ROOT_DIRECTORY_NAME

/-- `read_driver_node_path` (dmdevfs.c:1126): first writes the parent
directory into the buffer, then appends the leaf suffix after it
(`path_buffer += current_length`). -/
def read_driver_node_path (driver_name : String) (dev : DevNum) : String :=
  let parent := read_driver_parent_directory driver_name dev
  parent ++
    (if dev.minorGiven then
      uFmt dev.minor
    else if dev.majorGiven then
      driver_name ++ uFmt dev.major
    else
      driver_name)

/-- `dmdrvi_stat_t`: the driver-reported stat record (fields used by the
source: `size`, `mode`). -/
structure DmStat where
  size : Nat
  mode : Int
deriving DecidableEq, Repr

/-- Default stat record (the C caller passes an uninitialised/zeroed
struct; the value is never read when the call fails). -/
def DmStat.zero : DmStat := ⟨0, 0⟩

/-- A parsed configuration document (`dmini_context_t` contents): the
optional `driver_name` key of section `main`, plus an opaque identifier
standing for the remaining keys that are passed through verbatim to the
driver's create call. -/
structure IniDoc where
  driver_name : Option String := none
  payload : Nat := 0
deriving DecidableEq, Repr

/-- The capability set of a loaded driver module, as resolved by
`Dmod_GetDifFunction` signature lookups.  `none` models a NULL function
pointer (capability absent).  Handles and runtime contexts are opaque to
the core, so a device handle is a `Nat` and `dmdrvi_open` returning NULL is
`none`.  `dmdrvi_create` receives the full parsed document and yields the
device descriptor, or `none` when it returns a NULL runtime context.
`dmdrvi_read`/`dmdrvi_write` report a byte count for a requested
size; `dmdrvi_flush` reports an `int` status; `dmdrvi_stat` reports an
`int` status and fills a stat record. -/
structure DriverCaps where
  create : Option (IniDoc → Option DevNum) := none
  openCap : Option (Int → Option Nat) := none
  closeCap : Option Unit := none
  readCap : Option (Nat → Nat) := none
  writeCap : Option (Nat → Nat) := none
  flushCap : Option Int := none
  statCap : Option (String → Int × DmStat) := none
  freeCap : Option Unit := none

/-- `driver_node_t` (dmdevfs.c:32): one configured driver instance.
`name` is `Dmod_GetName(node->driver)`; `caps` stands for the module
context through which capability functions are resolved; `path` is the
cached canonical path. -/
structure DriverNode where
  name : String
  dev : DevNum
  caps : DriverCaps
  was_loaded : Bool := false
  was_enabled : Bool := false
  path : String

/-- Builds a `driver_node_t` the way `configure_driver` does: the `path`
field is filled by `read_driver_node_path`. -/
def mkDriverNode (name : String) (dev : DevNum) (caps : DriverCaps)
    (wl we : Bool) : DriverNode :=
  { name := name, dev := dev, caps := caps,
    was_loaded := wl, was_enabled := we,
    path := read_driver_node_path name dev }

/-- Parent-directory string of a node (the node-level view of
`read_driver_parent_directory`). -/
def DriverNode.parentDir (n : DriverNode) : String :=
  read_driver_parent_directory n.name n.dev

/-- Character loop of C `strcmp`: first mismatching position decides the
sign; only the zero/nonzero outcome is consumed by the source. -/
def strcmpChars : List Char → List Char → Int
  | [], [] => 0
  | [], _ :: _ => -1
  | _ :: _, [] => 1
  | a :: as, b :: bs => if a = b then strcmpChars as bs else if a < b then -1 else 1

/-- `strcmp`, as used by `compare_driver_node_path`. -/
def strcmpZ (a b : String) : Int := strcmpChars a.data b.data

/-- `compare_driver_node_path` (dmdevfs.c:1205): `strcmp` of the node's
cached canonical path against the queried path. -/
def compare_driver_node_path (n : DriverNode) (path : String) : Int :=
  strcmpZ n.path path

/-- The character loop of `compare_driver_directory` (dmdevfs.c:1190):
walks the queried path; mismatch yields 1, exhausting the queried path
yields 0.  When the computed directory path is exhausted first, the next
comparison reads its NUL terminator and mismatches (C strings contain no
interior NUL). -/
def cmpDirLoop : List Char → List Char → Int
  | [], _ => 0
  | _ :: _, [] => 1
  | p :: ps, q :: qs => if p = q then cmpDirLoop ps qs else 1

/-- `compare_driver_directory` (dmdevfs.c:1174): compares the queried path
character-by-character against the node's computed parent-directory path,
accepting when the queried path runs out. -/
def compare_driver_directory (n : DriverNode) (path : String) : Int :=
  cmpDirLoop path.data n.parentDir.data

/-- `dmlist_find` (external `dmlist` contract): first element matching the
comparator. -/
def dmlistFind (l : List DriverNode) (pred : DriverNode → Int) : Option DriverNode :=
  l.find? (fun n => pred n == 0)

/-- `find_driver_node` (dmdevfs.c:1251): exact-path lookup used by `fopen`
and `stat`. -/
def find_driver_node (drivers : List DriverNode) (path : String) : Option DriverNode :=
  dmlistFind drivers (fun n => compare_driver_node_path n path)

/-- `is_directory` (dmdevfs.c:1235): the root path, or some registered
node whose parent-directory comparison matches. -/
def is_directory (drivers : List DriverNode) (path : String) : Bool :=
  path == ROOT_DIRECTORY_NAME ||
    (dmlistFind drivers (fun n => compare_driver_directory n path)).isSome

/-- `dmlist_find_next` (external `dmlist` contract), with node pointers
modelled as list indices: first index `j ≥ start` whose element matches.
`get_next_driver_node(ctx, cur, path)` is `findNextIdx drivers 0 path`
when `cur` is NULL and `findNextIdx drivers (i+1) path` when `cur` sits at
index `i`. -/
def findNextIdx (drivers : List DriverNode) (start : Nat) (path : String) : Option Nat :=
  match (drivers.drop start).findIdx? (fun n => compare_driver_directory n path == 0) with
  | some k => some (start + k)
  | none => none

/-- `DMDEVFS_CONTEXT_MAGIC` (dmdevfs.c:23). -/
def DMDEVFS_CONTEXT_MAGIC : Nat := 0x444D4456

/-- `struct dmfsi_context` (dmdevfs.c:63): magic word, configuration path
and the ordered driver registry. -/
structure FsCtx where
  magic : Nat
  config_path : String
  drivers : List DriverNode

/-- `dmfsi_dmdevfs_context_is_valid` (dmdevfs.c:173).  A NULL context is
modelled by a wrong magic (the source treats both as invalid). -/
def context_is_valid (ctx : FsCtx) : Bool :=
  ctx.magic == DMDEVFS_CONTEXT_MAGIC

/-- `file_handle_t` (dmdevfs.c:51). -/
structure FileHandle where
  driver : DriverNode
  driver_handle : Nat
  path : String
  mode : Int
  attr : Int

/-- `driver_stat` (dmdevfs.c:1259): `DMFSI_ERR_NOT_FOUND` when the stat
capability is absent, otherwise the driver's raw `int` result together
with the filled record.  (The `context == NULL || stat == NULL` guard
cannot fire in this model.) -/
def driver_stat (n : DriverNode) (path : String) : Int × DmStat :=
  match n.caps.statCap with
  | none => (DMFSI_ERR_NOT_FOUND, DmStat.zero)
  | some f => f path

/-- `dmfsi_dmdevfs_fopen` (dmdevfs.c:199), returning the status and the
handle written through `*fp` on success.  (The `fp == NULL || path ==
NULL` guard is unrepresentable here.) -/
def dmfsi_fopen (ctx : FsCtx) (path : String) (mode attr : Int) :
    Int × Option FileHandle :=
  if !context_is_valid ctx then (DMFSI_ERR_INVALID, none)
  else
    match find_driver_node ctx.drivers path with
    | none => (DMFSI_ERR_NOT_FOUND, none)
    | some node =>
      match node.caps.openCap with
      | none => (DMFSI_ERR_NOT_FOUND, none)
      | some o =>
        match o mode with
        | none => (DMFSI_ERR_GENERAL, none)
        | some h =>
          (DMFSI_OK, some { driver := node, driver_handle := h,
                            path := path, mode := mode, attr := attr })

/-- `dmfsi_dmdevfs_fread` (dmdevfs.c:295): status together with the byte
count written through `*read`. -/
def dmfsi_fread (ctx : FsCtx) (fp : FileHandle) (size : Nat) : Int × Nat :=
  if !context_is_valid ctx then (DMFSI_ERR_INVALID, 0)
  else
    match fp.driver.caps.readCap with
    | none => (DMFSI_ERR_NOT_FOUND, 0)
    | some r => (DMFSI_OK, r size)

/-- `dmfsi_dmdevfs_fwrite` (dmdevfs.c:331). -/
def dmfsi_fwrite (ctx : FsCtx) (fp : FileHandle) (size : Nat) : Int × Nat :=
  if !context_is_valid ctx then (DMFSI_ERR_INVALID, 0)
  else
    match fp.driver.caps.writeCap with
    | none => (DMFSI_ERR_NOT_FOUND, 0)
    | some w => (DMFSI_OK, w size)

/-- `dmfsi_dmdevfs_fflush` (dmdevfs.c:521): OK when the driver has no
flush capability; otherwise GENERAL iff the driver reports nonzero. -/
def dmfsi_fflush (ctx : FsCtx) (fp : FileHandle) : Int :=
  if !context_is_valid ctx then DMFSI_ERR_INVALID
  else
    match fp.driver.caps.flushCap with
    | none => DMFSI_OK
    | some r => if r != 0 then DMFSI_ERR_GENERAL else DMFSI_OK

/-- `dmfsi_dmdevfs_sync` (dmdevfs.c:557): same body as `fflush` (sync and
flush are equivalent for devices). -/
def dmfsi_sync (ctx : FsCtx) (fp : FileHandle) : Int :=
  if !context_is_valid ctx then DMFSI_ERR_INVALID
  else
    match fp.driver.caps.flushCap with
    | none => DMFSI_OK
    | some r => if r != 0 then DMFSI_ERR_GENERAL else DMFSI_OK

/-- `directory_node_t` (dmdevfs.c:42): the open-directory iterator.  The
`driver` cursor pointer becomes an optional index into the registry. -/
structure DirNode where
  cursor : Option Nat
  directory_path : String
deriving DecidableEq, Repr

/-- `dmfsi_dir_entry_t` as filled by `readdir` (fields `name`, `size`,
`attr`). -/
structure DirEntry where
  name : String
  size : Nat
  attr : Int
deriving DecidableEq, Repr

/-- `dmfsi_dmdevfs_opendir` (dmdevfs.c:592): NOT_FOUND unless
`is_directory` accepts the path; otherwise a fresh iterator whose cursor
is `get_next_driver_node(ctx, NULL, path)`. -/
def dmfsi_opendir (ctx : FsCtx) (path : String) : Int × Option DirNode :=
  if !context_is_valid ctx then (DMFSI_ERR_INVALID, none)
  else if !is_directory ctx.drivers path then (DMFSI_ERR_NOT_FOUND, none)
  else (DMFSI_OK, some { cursor := findNextIdx ctx.drivers 0 path,
                         directory_path := path })

/-- `dmfsi_dmdevfs_direxists` (dmdevfs.c:702). -/
def dmfsi_direxists (ctx : FsCtx) (path : String) : Int :=
  if !context_is_valid ctx then 0
  else if is_directory ctx.drivers path then 1 else 0

/-- `dmfsi_dmdevfs_readdir` (dmdevfs.c:624): status, the entry written on
success, and the iterator state after the call.  The cursor node is
`reg[i]`; a cursor index past the registry cannot arise from `opendir` /
`readdir` themselves (in C it would be a dangling pointer) and is mapped
to GENERAL with the state unchanged.  On the file branch a stat failure
returns GENERAL *before* the cursor advance at the end of the function. -/
def dmfsi_readdir (ctx : FsCtx) (d : DirNode) : Int × Option DirEntry × DirNode :=
  if !context_is_valid ctx then (DMFSI_ERR_INVALID, none, d)
  else
    match d.cursor with
    | none => (DMFSI_ERR_NOT_FOUND, none, d)  -- no more entries
    | some i =>
      match ctx.drivers.get? i with
      | none => (DMFSI_ERR_GENERAL, none, d)
      | some driver =>
        let parent_dir := driver.parentDir
        let advanced : DirNode :=
          { d with cursor := findNextIdx ctx.drivers (i + 1) d.directory_path }
        if d.directory_path == parent_dir then
          -- file entry: name is strncpy of driver->path, stats from the driver
          match driver_stat driver driver.path with
          | (res, st) =>
            if res != 0 then (DMFSI_ERR_GENERAL, none, d)
            else (DMFSI_OK,
                  some { name := driver.path, size := st.size, attr := st.mode },
                  advanced)
        else
          (DMFSI_OK,
           some { name := parent_dir, size := 0, attr := DMFSI_ATTR_DIRECTORY },
           advanced)

/-- Fully draining an iterator: repeat `readdir` while it returns
`DMFSI_OK`, collecting the entry names.  Fuel bounds the recursion; any
fuel of at least `ctx.drivers.length + 1` is enough because the cursor
index strictly increases. -/
def drainNames (ctx : FsCtx) : Nat → DirNode → List String
  | 0, _ => []
  | fuel + 1, d =>
    match dmfsi_readdir ctx d with
    | (res, some e, d2) =>
      if res == DMFSI_OK then e.name :: drainNames ctx fuel d2 else []
    | (_, none, _) => []

/-- `opendir` followed by a full drain (empty when `opendir` fails). -/
def listDirectory (ctx : FsCtx) (path : String) : List String :=
  match dmfsi_opendir ctx path with
  | (res, some d) =>
    if res == DMFSI_OK then drainNames ctx (ctx.drivers.length + 1) d else []
  | (_, none) => []

/-- The module system's observable state (external collaborator of §6):
which modules are currently loaded and enabled. -/
structure ModState where
  loaded : String → Bool
  enabled : String → Bool

/-- State after `Dmod_LoadModuleByName` / `Dmod_UnloadModule` on `name`. -/
def ModState.setLoaded (s : ModState) (name : String) (v : Bool) : ModState :=
  { s with loaded := fun m => if m = name then v else s.loaded m }

/-- State after `Dmod_EnableModule` / `Dmod_DisableModule` on `name`. -/
def ModState.setEnabled (s : ModState) (name : String) (v : Bool) : ModState :=
  { s with enabled := fun m => if m = name then v else s.enabled m }

/-- Module-system calls that mutate load/enable state, recorded so that
"never unloads / never disables" is expressible as trace membership. -/
inductive ModEvent where
  | unloadEv (name : String)
  | disableEv (name : String)
deriving DecidableEq, Repr

/-- Environment of external collaborators consulted by the config walker:
`findMatch` is `Dmod_FindMatch` (does a module of this name exist),
`loadOk` whether a fresh `Dmod_LoadModuleByName` would succeed, `enableOk`
whether `Dmod_EnableModule` would succeed, `caps` the capability set the
loaded module resolves to, `parse` the `dmini_parse_file` outcome keyed by
the configuration file's full path, and `maxPathLen` is `MAX_PATH_LENGTH`
(`DMOD_MAX_MODULE_NAME_LENGTH + 20`). -/
structure ModEnv where
  findMatch : String → Bool
  loadOk : String → Bool
  enableOk : String → Bool
  caps : String → DriverCaps
  parse : String → Option IniDoc
  maxPathLen : Nat

/-- `is_driver` (dmdevfs.c:992): `Dmod_FindMatch` on the candidate name. -/
def is_driver (env : ModEnv) (name : String) : Bool := env.findMatch name

/-- `prepare_driver_module` (dmdevfs.c:1051): capture `was_loaded` /
`was_enabled`, load (a by-name load of an already-loaded module yields its
context), enable when not already enabled, and on enable failure undo a
fresh load.  Returns (success?, was_loaded, was_enabled, state after). -/
def prepare_driver_module (env : ModEnv) (s : ModState) (driver_name : String) :
    Option Unit × Bool × Bool × ModState :=
  let wl := s.loaded driver_name
  let we := s.enabled driver_name
  if wl || env.loadOk driver_name then
    let s1 := s.setLoaded driver_name true
    if we then (some (), wl, we, s1)
    else if env.enableOk driver_name then
      (some (), wl, we, s1.setEnabled driver_name true)
    else
      (none, wl, we, if !wl then s1.setLoaded driver_name false else s1)
  else
    (none, wl, we, s)

/-- `cleanup_driver_module` (dmdevfs.c:1078): disable only when the walker
enabled the module itself, unload only when the walker loaded it itself.
Also returns the trace of disable/unload calls it performed. -/
def cleanup_driver_module (s : ModState) (driver_name : String)
    (was_loaded was_enabled : Bool) : ModState × List ModEvent :=
  let step1 : ModState × List ModEvent :=
    if !was_enabled then (s.setEnabled driver_name false, [ModEvent.disableEv driver_name])
    else (s, [])
  if !was_loaded then
    (step1.1.setLoaded driver_name false, step1.2 ++ [ModEvent.unloadEv driver_name])
  else step1

/-- `configure_driver` (dmdevfs.c:877): prepare the module, require the
create capability, call it with the parsed document, compute the node's
path and return the node; every failure path runs `cleanup_driver_module`
with the captured flags.  (`Dmod_Malloc` failure is not modelled, and in
the unbounded-string model `read_driver_node_path` cannot fail.) -/
def configure_driver (env : ModEnv) (s : ModState) (driver_name : String)
    (doc : IniDoc) : ModState × Option DriverNode :=
  match prepare_driver_module env s driver_name with
  | (none, _, _, s1) => (s1, none)
  | (some _, wl, we, s1) =>
    let caps := env.caps driver_name
    match caps.create with
    | none => ((cleanup_driver_module s1 driver_name wl we).1, none)
    | some create =>
      match create doc with
      | none => ((cleanup_driver_module s1 driver_name wl we).1, none)
      | some dev => (s1, some (mkDriverNode driver_name dev caps wl we))

/-- Character recursion behind `read_base_name`: drop everything up to and
including the last `/`. -/
def read_base_name_chars : List Char → List Char
  | [] => []
  | c :: cs =>
    if c = '/' || cs.contains '/' then read_base_name_chars cs else c :: cs

/-- `read_base_name` (dmdevfs.c:1001): `strrchr(path, '/')` — the
substring after the last `/`, or the whole string when there is none. -/
def read_base_name (path : String) : String :=
  ⟨read_base_name_chars path.data⟩

/-- `strrchr(name, '.')`: splits at the last dot, returning the part
before it and the suffix starting at it; `none` when there is no dot. -/
def last_dot_split : List Char → Option (List Char × List Char)
  | [] => none
  | c :: cs =>
    match last_dot_split cs with
    | some (pre, suf) => some (c :: pre, suf)
    | none => if c = '.' then some ([], c :: cs) else none

/-- The `.ini`-stripping step of `read_driver_for_config` (dmdevfs.c:1040):
`ext = strrchr(driver_name, '.')`, and `*ext = '\0'` cuts the name at the
last dot exactly when `strcmp(ext, ".ini")` matches. -/
def strip_ini_extension (name : String) : String :=
  match last_dot_split name.data with
  | some (pre, suf) => if suf = ".ini".data then ⟨pre⟩ else name
  | none => name

/-- `read_driver_for_config` (dmdevfs.c:1012): parse the file; then
`dmini_get_string(ctx, "main", "driver_name", default_driver)` yields the
document's `driver_name` field if present, else the inherited default;
only when both are absent does the file's base name (stripped of `.ini`)
decide.  Returns the resolved name and the parsed document, or `none` when
parsing fails. -/
def read_driver_for_config (env : ModEnv) (config_path : String)
    (default_driver : Option String) : Option (String × IniDoc) :=
  match env.parse config_path with
  | none => none
  | some doc =>
    match doc.driver_name.orElse (fun _ => default_driver) with
    | some name => some (name, doc)
    | none => some (strip_ini_extension (read_base_name config_path), doc)

/-- The separator test of `configure_drivers` (dmdevfs.c:816):
`config_path_len > 0 && config_path[config_path_len - 1] != '/'`. -/
def needs_separator (config_path : String) : Bool :=
  config_path.length > 0 && config_path.data.getLastD ' ' != '/'

/-- Full path of a directory entry (dmdevfs.c:825). -/
def join_config_path (config_path entry : String) : String :=
  config_path ++ (if needs_separator config_path then "/" else "") ++ entry

/-- One entry of the configuration directory tree walked at mount time.
Whether an entry is a regular file or a directory is decided in C by
`is_file` probing the external filesystem; here it is the constructor.
`canOpen` records whether `Dmod_OpenDir` succeeds on that directory. -/
inductive CfgEntry where
  | file (fname : String)
  | dir (dname : String) (canOpen : Bool) (entries : List CfgEntry)
deriving Repr

/-- The entry loop of `configure_drivers` (dmdevfs.c:807-869), returning
the module-system state and the nodes appended to the registry, in
discovery order.  Every per-entry failure (`Path too long`, parse failure,
driver-configuration failure) takes a `continue`.  In the subdirectory
case the source re-derives the inherited default by assigning to the
`driver_name` loop variable, so the new default also applies to the
remaining sibling entries; the recursive `configure_drivers` call is
inlined here (its status is only logged) and a `dmlist_push_back` failure
is not modelled. -/
def walk_config_entries (env : ModEnv) (inherited : Option String)
    (config_path : String) (s : ModState) :
    List CfgEntry → ModState × List DriverNode
  | [] => (s, [])
  | CfgEntry.file fname :: rest =>
    let requiredLen := config_path.length +
      (if needs_separator config_path then 1 else 0) + fname.length + 1
    if requiredLen > env.maxPathLen then
      walk_config_entries env inherited config_path s rest
    else
      match read_driver_for_config env (join_config_path config_path fname) inherited with
      | none => walk_config_entries env inherited config_path s rest
      | some (mname, doc) =>
        match configure_driver env s mname doc with
        | (s1, none) => walk_config_entries env inherited config_path s1 rest
        | (s1, some node) =>
          let tail := walk_config_entries env inherited config_path s1 rest
          (tail.1, node :: tail.2)
  | CfgEntry.dir dname canOpen subs :: rest =>
    let inherited2 := if env.findMatch dname then some dname else inherited
    if canOpen then
      let inner := walk_config_entries env inherited2
        (join_config_path config_path dname) s subs
      let tail := walk_config_entries env inherited2 config_path inner.1 rest
      (tail.1, inner.2 ++ tail.2)
    else
      walk_config_entries env inherited2 config_path s rest

/-- `configure_drivers` (dmdevfs.c:798): NOT_FOUND when the directory
cannot be opened; otherwise walk every entry and report OK. -/
def configure_drivers (env : ModEnv) (s : ModState) (inherited : Option String)
    (config_path : String) (canOpen : Bool) (entries : List CfgEntry) :
    ModState × Int × List DriverNode :=
  if !canOpen then (s, DMFSI_ERR_NOT_FOUND, [])
  else
    let w := walk_config_entries env inherited config_path s entries
    (w.1, DMFSI_OK, w.2)

/-- `dmfsi_dmdevfs_init` (dmdevfs.c:131): NULL/empty config path fails;
otherwise the context is returned iff the top-level `configure_drivers`
reported OK (on failure everything is torn down and NULL returned). -/
def dmfsi_init (env : ModEnv) (s : ModState) (config : String)
    (rootCanOpen : Bool) (entries : List CfgEntry) : Option FsCtx :=
  if config.length == 0 then none
  else
    let r := configure_drivers env s none config rootCanOpen entries
    if r.2.1 != DMFSI_OK then none
    else some { magic := DMDEVFS_CONTEXT_MAGIC, config_path := config,
                drivers := r.2.2 }

/-!
## Shared example data and helper lemmas
-/

/-- Capability set with a total stat capability reporting size 4, mode 7. -/
def statCaps47 : DriverCaps := { statCap := some (fun _ => (0, ⟨4, 7⟩)) }

/-- Example node: driver `dmuart`, major 0, minor 1 (Scenario D). -/
def nodeUart1 : DriverNode :=
  mkDriverNode "dmuart" ⟨true, true, 0, 1⟩ statCaps47 false false

/-- Example node: driver `dmuart`, major 0, minor 2. -/
def nodeUart2 : DriverNode :=
  mkDriverNode "dmuart" ⟨true, true, 0, 2⟩ statCaps47 false false

/-- Example node: driver `dmclk`, no device numbers (Scenario A). -/
def nodeClk : DriverNode :=
  mkDriverNode "dmclk" ⟨false, false, 0, 0⟩ statCaps47 false false

/-- Valid context holding the two same-group `dmuart` nodes. -/
def ctxGroup : FsCtx :=
  ⟨DMDEVFS_CONTEXT_MAGIC, "/etc/dmdevfs", [nodeUart1, nodeUart2]⟩

/-- Valid context holding the bare `dmclk` node. -/
def ctxClk : FsCtx := ⟨DMDEVFS_CONTEXT_MAGIC, "/etc/dmdevfs", [nodeClk]⟩

theorem strcmpChars_eq_zero_iff (p q : List Char) :
    strcmpChars p q = 0 ↔ p = q := by
  induction p generalizing q with
  | nil => cases q <;> simp [strcmpChars]
  | cons a as ih =>
    cases q with
    | nil => simp [strcmpChars]
    | cons b bs =>
      by_cases hab : a = b
      · simp [strcmpChars, hab, ih]
      · by_cases hlt : a < b <;> simp [strcmpChars, hab, hlt]

theorem compare_driver_node_path_eq_zero (n : DriverNode) (p : String) :
    compare_driver_node_path n p = 0 ↔ n.path = p := by
  rw [compare_driver_node_path, strcmpZ, strcmpChars_eq_zero_iff]
  exact ⟨fun h => String.ext h, fun h => by rw [h]⟩

theorem cmpDirLoop_eq_zero_iff (p q : List Char) :
    cmpDirLoop p q = 0 ↔ List.isPrefixOf p q = true := by
  induction p generalizing q with
  | nil => simp [cmpDirLoop, List.isPrefixOf]
  | cons a as ih =>
    cases q with
    | nil => simp [cmpDirLoop, List.isPrefixOf]
    | cons b bs =>
      by_cases hab : a = b
      · simp [cmpDirLoop, List.isPrefixOf, hab, ih]
      · simp [cmpDirLoop, List.isPrefixOf, hab, beq_iff_eq]

/-!
## Claims
-/

/-- **C1** as stated is false: for a major-only driver `dmspi` with major 0
the code computes canonical path `"/dmspi0"`, not the table's `"dmspi0"`
(the leaf suffix is appended after the parent `"/"` already written into
the buffer). -/
theorem C1_counterexample :
    read_driver_node_path "dmspi" ⟨true, false, 0, 0⟩ = "/dmspi0" ∧
    ("/dmspi0" : String) ≠ "dmspi0" ∧
    read_driver_parent_directory "dmspi" ⟨true, false, 0, 0⟩ = "/" :=
  ⟨rfl, by decide, rfl⟩

/-- **C1 (amended)**: parent paths match the §4.2 table in all four cases;
the canonical path is the parent path with the leaf appended, which equals
the table's leaf in the two minor-present cases but carries the leading
root `"/"` in the major-only and no-number cases. -/
theorem C1_amended (name : String) (major minor : Nat) :
    (read_driver_parent_directory name ⟨true, true, major, minor⟩
        = name ++ Nat.repr major ++ "/"
      ∧ read_driver_node_path name ⟨true, true, major, minor⟩
        = name ++ Nat.repr major ++ "/" ++ Nat.repr minor)
  ∧ (read_driver_parent_directory name ⟨false, true, major, minor⟩
        = name ++ "x/"
      ∧ read_driver_node_path name ⟨false, true, major, minor⟩
        = name ++ "x/" ++ Nat.repr minor)
  ∧ (read_driver_parent_directory name ⟨true, false, major, minor⟩ = "/"
      ∧ read_driver_node_path name ⟨true, false, major, minor⟩
        = "/" ++ name ++ Nat.repr major)
  ∧ (read_driver_parent_directory name ⟨false, false, major, minor⟩ = "/"
      ∧ read_driver_node_path name ⟨false, false, major, minor⟩
        = "/" ++ name) := by
  simp [read_driver_node_path, read_driver_parent_directory, uFmt,
    ROOT_DIRECTORY_NAME, String.append_assoc]

/-- **C2** as stated is false: for driver `dmuart` with major 0 and minor 1
the stored canonical path is `"dmuart0/1"`, and the exact-`strcmp` lookup
fails on `"/dmuart0/1"` (which the claim says must succeed). -/
theorem C2_counterexample :
    find_driver_node [nodeUart1] "/dmuart0/1" = none ∧
    find_driver_node [nodeUart1] "dmuart0/1" = some nodeUart1 :=
  ⟨by rfl, by rfl⟩

/-- **C2 (amended)**: `find_by_path` succeeds exactly on the stored
canonical path of some registered node (the `read_driver_node_path`
string, which carries a leading `/` precisely when the parent is the
root), returning the first such node; every other string — proper
prefixes of grouping paths included — is not found. -/
theorem C2_amended (drivers : List DriverNode) (p : String) :
    ((find_driver_node drivers p).isSome ↔ ∃ n ∈ drivers, n.path = p)
  ∧ (∀ n, find_driver_node drivers p = some n → n.path = p) := by
  constructor
  · rw [find_driver_node, dmlistFind, List.find?_isSome]
    constructor
    · rintro ⟨n, hn, hp⟩
      exact ⟨n, hn, (compare_driver_node_path_eq_zero n p).mp
        (by simpa [beq_iff_eq] using hp)⟩
    · rintro ⟨n, hn, hp⟩
      exact ⟨n, hn, by
        simp [beq_iff_eq, (compare_driver_node_path_eq_zero n p).mpr hp]⟩
  · intro n hn
    exact (compare_driver_node_path_eq_zero n p).mp
      (by simpa [beq_iff_eq] using List.find?_some hn)

/-- Witness for C2 (amended): applied to the singleton `dmuart` registry,
certifying that the node found at `"dmuart0/1"` has that stored path. -/
theorem C2_amended_witness : nodeUart1.path = "dmuart0/1" :=
  (C2_amended [nodeUart1] "dmuart0/1").2 nodeUart1 (by rfl)

/-- **C3**: the code contradicts the claim (and the repository's own
`TEST_PLAN_ROOT_DIRECTORY_LISTING.md`, tests 4 and 5).  With two `dmuart`
instances sharing major 0 and differing in minor, draining the root
iterator yields no entry at all — the root comparator walks `"/"` against
the parent `"dmuart0/"` and mismatches at the first character, so grouped
nodes never surface at root and the synthetic-directory branch is
unreachable from `"/"` — instead of exactly one `"dmuart0/"` entry; and
draining the grouping directory yields the full canonical paths
`"dmuart0/1"`, `"dmuart0/2"`, not the leaf minors `"1"`, `"2"`. -/
theorem C3_code_behavior :
    listDirectory ctxGroup "/" = []
  ∧ listDirectory ctxGroup "dmuart0/" = ["dmuart0/1", "dmuart0/2"]
  ∧ nodeUart1.parentDir = "dmuart0/" ∧ nodeUart2.parentDir = "dmuart0/" :=
  ⟨by rfl, by rfl, by rfl, by rfl⟩

/-- **C4**: the code contradicts the claim (and the repository's own test
plan, which expects `dmclk` in a root listing).  The file-entry branch
copies `driver->path` — the full canonical path `"/dmclk"` — into the
entry name instead of the leaf component `"dmclk"`; size and attributes
do come from the driver's stat call. -/
theorem C4_code_behavior :
    dmfsi_opendir ctxClk "/" = (DMFSI_OK, some ⟨some 0, "/"⟩)
  ∧ dmfsi_readdir ctxClk ⟨some 0, "/"⟩
      = (DMFSI_OK, some ⟨"/dmclk", 4, 7⟩, ⟨none, "/"⟩)
  ∧ ("/dmclk" : String) ≠ "dmclk" :=
  ⟨by rfl, by rfl, by decide⟩

/-- Environment for the configuration-walk examples: every module loads
and enables, no name is a known module for `Dmod_FindMatch`, and exactly
the file `conf/Y.ini` parses (to a document without `driver_name`). -/
def envExample : ModEnv :=
  { findMatch := fun _ => false
    loadOk := fun _ => true
    enableOk := fun _ => true
    caps := fun _ => {}
    parse := fun p => if p = "conf/Y.ini" then some {} else none
    maxPathLen := 100 }

/-- Module-system state with nothing loaded or enabled. -/
def mod0 : ModState := ⟨fun _ => false, fun _ => false⟩

/-- **C5** as stated is false: for a parsed document without a
`driver_name` field in file `conf/Y.ini` and an inherited default
`dmspiflash`, the code resolves `dmspiflash` (the inherited default wins
over the file base name, because `dmini_get_string` already substitutes
the default), not `Y`. -/
theorem C5_counterexample :
    read_driver_for_config envExample "conf/Y.ini" (some "dmspiflash")
      = some ("dmspiflash", {}) ∧
    ("dmspiflash" : String) ≠ "Y" ∧
    strip_ini_extension (read_base_name "conf/Y.ini") = "Y" :=
  ⟨by rfl, by decide, by rfl⟩

/-- **C5 (amended)**: the driver name resolves with priority (1) the
document's explicit `driver_name` field, (2) the inherited default driver
name, (3) the file's base name with the `.ini` extension stripped — the
base name is used only when no default was inherited. -/
theorem C5_amended (env : ModEnv) (p : String) (default_driver : Option String)
    (doc : IniDoc) (h : env.parse p = some doc) :
    (∀ x, doc.driver_name = some x →
        read_driver_for_config env p default_driver = some (x, doc))
  ∧ (doc.driver_name = none → ∀ d, default_driver = some d →
        read_driver_for_config env p default_driver = some (d, doc))
  ∧ (doc.driver_name = none → default_driver = none →
        read_driver_for_config env p default_driver
          = some (strip_ini_extension (read_base_name p), doc)) := by
  refine ⟨?_, ?_, ?_⟩
  · intro x hx
    simp [read_driver_for_config, h, hx, Option.orElse]
  · intro h0 d hd
    simp [read_driver_for_config, h, h0, hd, Option.orElse]
  · intro h0 hd
    simp [read_driver_for_config, h, h0, hd, Option.orElse]

/-- Witness for C5 (amended): with no field and no inherited default, the
name comes from the file base name `Y`. -/
theorem C5_amended_witness :
    read_driver_for_config envExample "conf/Y.ini" none = some ("Y", {}) :=
  (C5_amended envExample "conf/Y.ini" none {} (by rfl)).2.2 rfl rfl

/-- **C6** as stated is false: `"dmu"` is neither the root nor any node's
computed parent-directory path, yet `opendir` succeeds and `direxists`
reports 1, because `compare_driver_directory` accepts any queried path
that is a character-prefix of a computed parent path. -/
theorem C6_counterexample :
    (dmfsi_opendir ctxGroup "dmu").1 = DMFSI_OK
  ∧ dmfsi_direxists ctxGroup "dmu" = 1
  ∧ ("dmu" : String) ≠ "/"
  ∧ decide (∃ n ∈ ctxGroup.drivers, n.parentDir = "dmu") = false :=
  ⟨by rfl, by rfl, by decide, by rfl⟩

/-- **C6 (amended)**: on a valid context, `opendir` succeeds — and
`direxists` reports 1 — exactly for the root path `"/"` or a path that is
a character-prefix of some registered node's computed parent-directory
path (every exact parent path qualifies, but so do proper prefixes such
as `"dmu"`); every other path gets NOT_FOUND / 0. -/
theorem C6_amended (ctx : FsCtx) (p : String)
    (h : context_is_valid ctx = true) :
    ((dmfsi_opendir ctx p).1 = DMFSI_OK
      ↔ (p = "/" ∨ ∃ n ∈ ctx.drivers, p.data <+: n.parentDir.data))
  ∧ (dmfsi_direxists ctx p = 1
      ↔ (p = "/" ∨ ∃ n ∈ ctx.drivers, p.data <+: n.parentDir.data)) := by
  have hdir : is_directory ctx.drivers p = true
      ↔ (p = "/" ∨ ∃ n ∈ ctx.drivers, p.data <+: n.parentDir.data) := by
    rw [is_directory, dmlistFind]
    simp only [Bool.or_eq_true, beq_iff_eq, ROOT_DIRECTORY_NAME,
      Option.isSome_iff_exists]
    constructor
    · rintro (hp | ⟨n, hn⟩)
      · exact Or.inl hp
      · have hmem := List.mem_of_find?_eq_some hn
        have hpred := List.find?_some hn
        refine Or.inr ⟨n, hmem, ?_⟩
        rw [← List.isPrefixOf_iff_prefix, ← cmpDirLoop_eq_zero_iff]
        simpa [compare_driver_directory, beq_iff_eq] using hpred
    · rintro (hp | ⟨n, hn, hpre⟩)
      · exact Or.inl hp
      · right
        have hsome :
            (List.find? (fun n => compare_driver_directory n p == 0)
              ctx.drivers).isSome := by
          rw [List.find?_isSome]
          exact ⟨n, hn, by
            simp [beq_iff_eq, compare_driver_directory,
              (cmpDirLoop_eq_zero_iff p.data n.parentDir.data).mpr
                (List.isPrefixOf_iff_prefix.mpr hpre)]⟩
        rcases Option.isSome_iff_exists.mp hsome with ⟨m, hm⟩
        exact ⟨m, hm⟩
  constructor
  · rw [dmfsi_opendir]
    simp only [h, Bool.not_true, Bool.false_eq_true, if_false]
    by_cases hd : is_directory ctx.drivers p
    · simp [hd, hdir.mp hd, DMFSI_OK]
    · have hnot : ¬ (p = "/" ∨ ∃ n ∈ ctx.drivers, p.data <+: n.parentDir.data) :=
        fun hcontra => hd (hdir.mpr hcontra)
      simp [hd, hnot, DMFSI_ERR_NOT_FOUND, DMFSI_OK]
  · rw [dmfsi_direxists]
    simp only [h, Bool.not_true, Bool.false_eq_true, if_false]
    by_cases hd : is_directory ctx.drivers p
    · simp [hd, hdir.mp hd]
    · have hnot : ¬ (p = "/" ∨ ∃ n ∈ ctx.drivers, p.data <+: n.parentDir.data) :=
        fun hcontra => hd (hdir.mpr hcontra)
      simp [hd, hnot]

/-- Witness for C6 (amended): a successful `opendir` on the exact
grouping path `"dmuart0/"` certifies the characterization. -/
theorem C6_amended_witness :
    ("dmuart0/" : String) = "/"
      ∨ ∃ n ∈ ctxGroup.drivers, "dmuart0/".data <+: n.parentDir.data :=
  ((C6_amended ctxGroup "dmuart0/" (by rfl)).1).mp (by rfl)

/-- **C7**: during the mount-time walk, a failing configuration entry
(parse failure, or any driver-configuration failure such as a load
failure, a missing create capability or a failed create) only skips that
entry — the walk of the sibling entries continues from the same point —
and `configure_drivers` still reports `DMFSI_OK` for any entry list
whenever the directory itself opens, so the mount succeeds; `init`
returns a context iff the configuration path is nonempty and the
top-level directory opens, and fails the whole mount when it does not. -/
theorem C7_theorem (env : ModEnv) (s : ModState) (inherited : Option String)
    (cp : String) (entries : List CfgEntry) (config : String) :
    ((configure_drivers env s inherited cp true entries).2.1 = DMFSI_OK)
  ∧ ((configure_drivers env s inherited cp false entries).2.1
      = DMFSI_ERR_NOT_FOUND)
  ∧ (∀ fname rest, env.parse (join_config_path cp fname) = none →
        walk_config_entries env inherited cp s (CfgEntry.file fname :: rest)
          = walk_config_entries env inherited cp s rest)
  ∧ (∀ fname rest mname doc s1,
        cp.length + (if needs_separator cp then 1 else 0) + fname.length + 1
          ≤ env.maxPathLen →
        read_driver_for_config env (join_config_path cp fname) inherited
          = some (mname, doc) →
        configure_driver env s mname doc = (s1, none) →
        walk_config_entries env inherited cp s (CfgEntry.file fname :: rest)
          = walk_config_entries env inherited cp s1 rest)
  ∧ (config.length ≠ 0 → (dmfsi_init env s config true entries).isSome = true)
  ∧ (dmfsi_init env s config false entries = none) := by
  refine ⟨?_, ?_, ?_, ?_, ?_, ?_⟩
  · simp [configure_drivers]
  · simp [configure_drivers]
  · intro fname rest h
    simp only [walk_config_entries, read_driver_for_config, h, ite_self]
  · intro fname rest mname doc s1 hlen hread hconf
    rw [walk_config_entries, if_neg (Nat.not_lt.mpr hlen)]
    simp only [hread, hconf]
  · intro h
    simp [dmfsi_init, configure_drivers, h, DMFSI_OK]
  · by_cases h : config.length = 0
    · simp [dmfsi_init, h]
    · simp [dmfsi_init, configure_drivers, h, DMFSI_ERR_NOT_FOUND, DMFSI_OK]

/-- Witness for C7: a concrete mount succeeds with an entry list whose
single file fails to parse (the failing entry is simply skipped), and the
same mount fails when the top-level directory does not open. -/
theorem C7_witness :
    ((dmfsi_init envExample mod0 "/etc/dmdevfs" true []).isSome = true)
  ∧ (walk_config_entries envExample none "/etc" mod0 [CfgEntry.file "bad.ini"]
      = walk_config_entries envExample none "/etc" mod0 [])
  ∧ (dmfsi_init envExample mod0 "/etc/dmdevfs" false [] = none) :=
  ⟨(C7_theorem envExample mod0 none "/etc" [] "/etc/dmdevfs").2.2.2.2.1
      (by decide),
   (C7_theorem envExample mod0 none "/etc" [] "/etc/dmdevfs").2.2.1
      "bad.ini" [] (by rfl),
   (C7_theorem envExample mod0 none "/etc" [] "/etc/dmdevfs").2.2.2.2.2⟩

/-- **C8**: for a node whose module acquisition succeeded, teardown with
the captured `was_loaded`/`was_enabled` flags never unloads a module that
was already loaded and never disables one that was already enabled,
unloads/disables exactly those the walker brought up itself, and restores
the module's pre-acquisition loaded/enabled state. -/
theorem C8_theorem (env : ModEnv) (s : ModState) (name : String)
    (wl we : Bool) (s1 : ModState)
    (h : prepare_driver_module env s name = (some (), wl, we, s1)) :
    (wl = true → ModEvent.unloadEv name ∉ (cleanup_driver_module s1 name wl we).2)
  ∧ (we = true → ModEvent.disableEv name ∉ (cleanup_driver_module s1 name wl we).2)
  ∧ (wl = false → ModEvent.unloadEv name ∈ (cleanup_driver_module s1 name wl we).2)
  ∧ (we = false → ModEvent.disableEv name ∈ (cleanup_driver_module s1 name wl we).2)
  ∧ ((cleanup_driver_module s1 name wl we).1.loaded name = s.loaded name)
  ∧ ((cleanup_driver_module s1 name wl we).1.enabled name = s.enabled name) := by
  by_cases hl : s.loaded name <;> by_cases he : s.enabled name <;>
    by_cases hlo : env.loadOk name <;> by_cases heo : env.enableOk name <;>
    simp only [prepare_driver_module, hl, he, hlo, heo, Bool.true_or,
      Bool.false_or, Bool.or_false, Bool.or_true, if_true, if_false,
      Bool.not_true, Bool.not_false, ite_true, ite_false,
      Prod.mk.injEq, Option.some.injEq, reduceCtorEq, false_and,
      and_false] at h <;>
    obtain ⟨-, hwl, hwe, hs1⟩ := h <;> subst hwl <;> subst hwe <;> subst hs1 <;>
    simp [cleanup_driver_module, ModState.setLoaded, ModState.setEnabled,
      hl, he]

/-- Module-system state after the walker freshly acquires module `drv`
from the empty state. -/
def s8 : ModState := (prepare_driver_module envExample mod0 "drv").2.2.2

/-- Witness for C8: a fresh acquisition (`was_loaded = was_enabled =
false`) is unloaded at teardown and the pre-mount state is restored. -/
theorem C8_witness :
    (ModEvent.unloadEv "drv" ∈ (cleanup_driver_module s8 "drv" false false).2)
  ∧ ((cleanup_driver_module s8 "drv" false false).1.loaded "drv"
      = mod0.loaded "drv")
  ∧ ((cleanup_driver_module s8 "drv" false false).1.enabled "drv"
      = mod0.enabled "drv") :=
  ⟨(C8_theorem envExample mod0 "drv" false false s8 (by rfl)).2.2.1 rfl,
   (C8_theorem envExample mod0 "drv" false false s8 (by rfl)).2.2.2.2.1,
   (C8_theorem envExample mod0 "drv" false false s8 (by rfl)).2.2.2.2.2⟩

/-- Example node with no capabilities at all. -/
def nodeBare : DriverNode :=
  mkDriverNode "dmnul" ⟨false, false, 0, 0⟩ {} false false

/-- Example node whose read/write capabilities report zero bytes. -/
def nodeZeroRW : DriverNode :=
  mkDriverNode "dmz" ⟨false, false, 0, 0⟩
    { readCap := some (fun _ => 0), writeCap := some (fun _ => 0) } false false

/-- Valid context holding the two capability-example nodes. -/
def ctxCaps : FsCtx :=
  ⟨DMDEVFS_CONTEXT_MAGIC, "/etc/dmdevfs", [nodeBare, nodeZeroRW]⟩

/-- Open handle on the capability-free node. -/
def fhBare : FileHandle := ⟨nodeBare, 1, "/dmnul", 0, 0⟩

/-- Open handle on the zero-byte read/write node. -/
def fhZero : FileHandle := ⟨nodeZeroRW, 1, "/dmz", 0, 0⟩

/-- **C9**: on a valid context, flush and sync return OK when the driver
lacks a flush capability; `fopen` on a resolved node without an open
capability, and `fread`/`fwrite` without a read/write capability, return
NOT_FOUND; and with the capability present a driver-reported zero byte
count comes back as OK with zero bytes, not as an error. -/
theorem C9_theorem (ctx : FsCtx) (fp : FileHandle) (path : String)
    (mode attr : Int) (size : Nat) (h : context_is_valid ctx = true) :
    (fp.driver.caps.flushCap = none →
        dmfsi_fflush ctx fp = DMFSI_OK ∧ dmfsi_sync ctx fp = DMFSI_OK)
  ∧ (∀ n, find_driver_node ctx.drivers path = some n → n.caps.openCap = none →
        (dmfsi_fopen ctx path mode attr).1 = DMFSI_ERR_NOT_FOUND)
  ∧ (fp.driver.caps.readCap = none →
        dmfsi_fread ctx fp size = (DMFSI_ERR_NOT_FOUND, 0))
  ∧ (fp.driver.caps.writeCap = none →
        dmfsi_fwrite ctx fp size = (DMFSI_ERR_NOT_FOUND, 0))
  ∧ (∀ r, fp.driver.caps.readCap = some r → r size = 0 →
        dmfsi_fread ctx fp size = (DMFSI_OK, 0))
  ∧ (∀ w, fp.driver.caps.writeCap = some w → w size = 0 →
        dmfsi_fwrite ctx fp size = (DMFSI_OK, 0)) := by
  refine ⟨?_, ?_, ?_, ?_, ?_, ?_⟩
  · intro hf
    constructor <;> simp [dmfsi_fflush, dmfsi_sync, h, hf]
  · intro n hn ho
    simp [dmfsi_fopen, h, hn, ho]
  · intro hr
    simp [dmfsi_fread, h, hr]
  · intro hw
    simp [dmfsi_fwrite, h, hw]
  · intro r hr hz
    simp [dmfsi_fread, h, hr, hz]
  · intro w hw hz
    simp [dmfsi_fwrite, h, hw, hz]

/-- Witness for C9 on concrete handles: a capability-free driver flushes
as a no-op OK and opens as NOT_FOUND; a zero-byte read/write reports OK
with zero bytes. -/
theorem C9_witness :
    (dmfsi_fflush ctxCaps fhBare = DMFSI_OK)
  ∧ ((dmfsi_fopen ctxCaps "/dmnul" 0 0).1 = DMFSI_ERR_NOT_FOUND)
  ∧ (dmfsi_fread ctxCaps fhZero 8 = (DMFSI_OK, 0))
  ∧ (dmfsi_fwrite ctxCaps fhZero 8 = (DMFSI_OK, 0)) :=
  ⟨((C9_theorem ctxCaps fhBare "/dmnul" 0 0 8 (by rfl)).1 rfl).1,
   (C9_theorem ctxCaps fhBare "/dmnul" 0 0 8 (by rfl)).2.1 nodeBare (by rfl) rfl,
   (C9_theorem ctxCaps fhZero "/dmz" 0 0 8 (by rfl)).2.2.2.2.1 (fun _ => 0) rfl rfl,
   (C9_theorem ctxCaps fhZero "/dmz" 0 0 8 (by rfl)).2.2.2.2.2 (fun _ => 0) rfl rfl⟩

/-- **C10**: when `readdir` classifies the cursor node as a file entry
(the node's computed parent directory equals the iterator's directory
path) and the driver's stat capability is absent or its stat call reports
nonzero, the call returns GENERAL with no entry and leaves the iterator —
in particular its cursor — unchanged, so the next call retries the same
node. -/
theorem C10_theorem (ctx : FsCtx) (d : DirNode) (i : Nat) (node : DriverNode)
    (hv : context_is_valid ctx = true)
    (hc : d.cursor = some i)
    (hn : ctx.drivers.get? i = some node)
    (hp : d.directory_path = node.parentDir)
    (hs : (driver_stat node node.path).1 ≠ 0) :
    dmfsi_readdir ctx d = (DMFSI_ERR_GENERAL, none, d) := by
  rw [dmfsi_readdir]
  simp only [hv, Bool.not_true, Bool.false_eq_true, if_false, hc, hn]
  simp [hp, hs]

/-- Witness for C10: the stat-free node makes `readdir` fail with GENERAL
and the cursor still points at index 0 afterwards. -/
theorem C10_witness :
    dmfsi_readdir ctxCaps ⟨some 0, "/"⟩
      = (DMFSI_ERR_GENERAL, none, ⟨some 0, "/"⟩) :=
  C10_theorem ctxCaps ⟨some 0, "/"⟩ 0 nodeBare (by rfl) rfl (by rfl) (by rfl)
    (by decide)

end Dmdevfs
